import Mathlib

set_option maxRecDepth 8000

/-!  Verification of the generate / sandbox-execute / repair pipeline of the
Assignment_Solving_Agent repository.  The development shallowly embeds the
behavioural core of the three source variants (`blackbox1.py`, `blackbox.py`,
`mistral.py`): result selection and formatting, capability (module)
resolution, the executor's outcome construction, the orchestrator's
single-repair control flow, and the synthesizer's retry/backoff loop.
Opaque host operations (the Python parser, the byte-level effect of `exec`,
module import success) are parameters of the model: a program is represented
by its parsed import list together with its behaviour as a function of the
execution scope it is given.  -/

/-- Values manipulated by generated programs as far as the pipeline inspects
them: integers, floats (carried by their decimal rendering, since the
pipeline only ever stringifies them), strings, and string-keyed mappings in
insertion order. -/
inductive PyVal where
| vInt (n : Int)
| vFloat (s : String)
| vStr (s : String)
| vDict (entries : List (String × PyVal))

mutual

/-- Python repr() of a value: strings are quoted, mappings render as
brace-enclosed comma-separated `key: value` pairs (string escaping is not
modelled). -/
def pyRepr : PyVal → String
| .vInt n => toString n
| .vFloat s => s
| .vStr s => "\x27" ++ s ++ "\x27"
| .vDict l => "\x7b" ++ pyEntries l ++ "\x7d"

/-- repr of a mapping's entries, comma separated, in insertion order. -/
def pyEntries : List (String × PyVal) → String
| [] => ""
| [(k, v)] => "\x27" ++ k ++ "\x27: " ++ pyRepr v
| (k, v) :: rest => "\x27" ++ k ++ "\x27: " ++ pyRepr v ++ ", " ++ pyEntries rest

end

/-- Python str() of a value: like repr() except that top-level strings are
returned unquoted. -/
def pyStr : PyVal → String
| .vInt n => toString n
| .vFloat s => s
| .vStr s => s
| .vDict l => "\x7b" ++ pyEntries l ++ "\x7d"

mutual

/-- json.dumps serialization of a value (with default=str, as in
`format_result`); string escaping is not modelled. -/
def jsonVal : PyVal → String
| .vInt n => toString n
| .vFloat s => s
| .vStr s => "\"" ++ s ++ "\""
| .vDict l => "\x7b" ++ jsonEntries l ++ "\x7d"

/-- json.dumps of a mapping's entries, comma separated. -/
def jsonEntries : List (String × PyVal) → String
| [] => ""
| [(k, v)] => "\"" ++ k ++ "\": " ++ jsonVal v
| (k, v) :: rest => "\"" ++ k ++ "\": " ++ jsonVal v ++ ", " ++ jsonEntries rest

end

/-- json.dumps of a whole mapping. -/
def jsonDumps (l : List (String × PyVal)) : String :=
  jsonVal (.vDict l)

/-- First-match association-list lookup; models Python dict lookup for the
item lists produced by `exec` (whose keys are pairwise distinct). -/
def lookupKey {α : Type} : List (String × α) → String → Option α
| [], _ => none
| (k, v) :: rest, key => if k = key then some v else lookupKey rest key

/-- Splitter underlying `pySplit`, by explicit fuel (an upper bound on the
remaining characters, so the fallback first branch is never reached when the
fuel starts at length + 1): scans left to right, cutting at each leftmost
non-overlapping occurrence of `sep`, accumulating the current piece in
reverse. -/
def splitFuel (sep : List Char) : Nat → List Char → List Char → List (List Char)
| 0, s, acc => [acc.reverse ++ s]
| fuel + 1, s, acc =>
  match s with
  | [] => [acc.reverse]
  | c :: rest =>
    if sep.isPrefixOf (c :: rest) then
      acc.reverse :: splitFuel sep fuel (List.drop sep.length (c :: rest)) []
    else splitFuel sep fuel rest (c :: acc)

/-- Python `s.split(sep)` for a non-empty separator. -/
def pySplit (s sep : String) : List String :=
  (splitFuel sep.data (s.data.length + 1) s.data []).map String.mk

/-- Whitespace as recognized by Python `str.strip()`. -/
def isWs (c : Char) : Bool :=
  c = ' ' || c = '\t' || c = '\n' || c = '\r' || c = '\x0b' || c = '\x0c'

/-- Python `s.strip()`: drop leading and trailing whitespace. -/
def pyStrip (s : String) : String :=
  String.mk (((s.data.dropWhile isWs).reverse.dropWhile isWs).reverse)

/-- Python `s.startswith(pre)`. -/
def pyStartsWith (s pre : String) : Bool :=
  pre.data.isPrefixOf s.data

/-- The opening marker of a fenced Python code block. -/
def pyFence : String := "```python"

/-- The closing marker of a fenced code block. -/
def fenceEnd : String := "```"

/-- Python `"\x60\x60\x60python" in response`: true when the marker occurs in
the reply, i.e. when splitting on it yields more than one piece. -/
def contains_python_fence (s : String) : Bool :=
  decide (1 < (pySplit s pyFence).length)

/-- Python `response.split("\x60\x60\x60python")[1].split("\x60\x60\x60")[0].strip()`:
the text between the first fence markers, whitespace-trimmed. -/
def extract_code (s : String) : String :=
  pyStrip ((pySplit ((pySplit s pyFence).getD 1 "") fenceEnd).getD 0 "")

/-- The repair path's extraction: the reply is used verbatim as code unless it
contains a fenced block, in which case the block is extracted. -/
def extract_if_fence (s : String) : String :=
  if contains_python_fence s then extract_code s else s

namespace Blackbox1

/-- The AVAILABLE_MODULES mapping of blackbox1.py, in declaration order:
each module name paired with the alias it would be bound under. -/
def AVAILABLE_MODULES : List (String × String) := [
("pandas", "pd"), ("numpy", "np"), ("PIL", "PIL"), ("PIL.Image", "Image"),
("zipfile", "zipfile"), ("io", "io"), ("hashlib", "hashlib"),
("json", "json"), ("re", "re"), ("pdfplumber", "pdfplumber"),
("datetime", "datetime"), ("csv", "csv"), ("os", "os"), ("sys", "sys"),
("bs4", "bs4"), ("bs4.BeautifulSoup", "BeautifulSoup"),
("requests", "requests"), ("openpyxl", "openpyxl"),
("dateutil.parser", "date_parser"), ("gzip", "gzip"),
("feedparser", "feedparser"), ("github", "Github"),
("prettier", "prettier")]

/-- One iteration of the first loop of `load_modules_dynamically`: a registry
entry whose module name is requested (exactly, or as the prefix of a dotted
request) is imported; on success its handle is stored under the entry's
alias, on failure the module name is appended to the unavailable list.
The availability oracle `avail` stands for import success; a handle is
modelled by the module name it resolves.  The oracle covers only the
success-versus-ImportError dichotomy that the source's except clause
catches; `registryStepE` below additionally represents acquisition
exceptions other than ImportError, which that except clause does not
catch. -/
def registryStep (avail : String → Bool) (required : List String)
    (acc : List (String × String) × List String) (p : String × String) :
    List (String × String) × List String :=
  if required.contains p.1 || required.any (fun m => pyStartsWith m (p.1 ++ ".")) then
    if avail p.1 then (acc.1 ++ [(p.2, p.1)], acc.2)
    else (acc.1, acc.2 ++ [p.1])
  else acc

/-- One iteration of the second loop of `load_modules_dynamically`: a
requested dot-free name outside the registry is imported under its own name,
or appended to the unavailable list on failure; all other names are skipped
by this loop.  As for `registryStep`, failure here means ImportError, the
only exception caught; `extraStepE` below also represents uncaught
acquisition exceptions. -/
def extraStep (avail : String → Bool)
    (acc : List (String × String) × List String) (m : String) :
    List (String × String) × List String :=
  if !(m.data.contains '.') && AVAILABLE_MODULES.all (fun p => p.1 != m) then
    if avail m then (acc.1 ++ [(m, m)], acc.2)
    else (acc.1, acc.2 ++ [m])
  else acc

/-- blackbox1.py `DynamicCodeExecutor.load_modules_dynamically`: scans the
registry, then the remaining requested names, returning the alias-keyed
available mapping and the list of unavailable module names.  This is the
restriction of `load_modules_dynamicallyE` below to acquisition oracles
that never raise an exception other than ImportError. -/
def load_modules_dynamically (avail : String → Bool) (required : List String) :
    List (String × String) × List String :=
  required.foldl (extraStep avail)
    (AVAILABLE_MODULES.foldl (registryStep avail required) ([], []))

/-- Entries of the execution scope: an imported module handle, a callable
pulled out of a module (io.StringIO, io.BytesIO, bs4.BeautifulSoup), or the
raw uploaded bytes. -/
inductive ScopeVal where
| moduleHandle (name : String)
| fnHandle (name : String)
| fileDataVal (fd : Option (List Nat))

/-- Observable behaviour of running a generated program with `exec` in a
given scope: it either raises (with a message and a formatted traceback) or
completes leaving a local-variable dictionary, modelled as its item list in
insertion order with pairwise distinct keys. -/
inductive ExecBehavior where
| raises (msg : String) (tb : String)
| completes (locals : List (String × PyVal))

/-- A generated program, represented by what the pipeline observes of it:
the module names of its import statements as found by ast.parse (`none` when
parsing raises SyntaxError), and its run behaviour as a function of the
globals scope it is executed in. -/
structure PyCode where
  parseImports : Option (List String)
  run : List (String × ScopeVal) → ExecBehavior

/-- blackbox1.py `DynamicCodeExecutor.get_required_modules`: the set of
imported module names, or the empty set when the code cannot be parsed. -/
def get_required_modules (c : PyCode) : List String :=
  match c.parseImports with
  | some imports => imports.dedup
  | none => []

/-- The fixed globals dictionary built by blackbox1.py
`DynamicCodeExecutor.execute` (lines 299-328): a hard-coded list of standard
and third-party module handles plus the raw bytes under `file_data`.  The
dynamically resolved modules of `load_modules_dynamically` are not added. -/
def build_globals (fd : Option (List Nat)) : List (String × ScopeVal) := [
("io", .moduleHandle "io"), ("StringIO", .fnHandle "io.StringIO"),
("BytesIO", .fnHandle "io.BytesIO"), ("file_data", .fileDataVal fd),
("os", .moduleHandle "os"), ("sys", .moduleHandle "sys"),
("re", .moduleHandle "re"), ("json", .moduleHandle "json"),
("csv", .moduleHandle "csv"), ("zipfile", .moduleHandle "zipfile"),
("hashlib", .moduleHandle "hashlib"), ("time", .moduleHandle "time"),
("datetime", .moduleHandle "datetime"), ("calendar", .moduleHandle "calendar"),
("shutil", .moduleHandle "shutil"), ("pathlib", .moduleHandle "pathlib"),
("gzip", .moduleHandle "gzip"), ("subprocess", .moduleHandle "subprocess"),
("collections", .moduleHandle "collections"),
("pandas", .moduleHandle "pandas"), ("chardet", .moduleHandle "chardet"),
("feedparser", .moduleHandle "feedparser"),
("requests", .moduleHandle "requests"), ("openpyxl", .moduleHandle "openpyxl"),
("PIL", .moduleHandle "PIL.Image")]

/-- The binding names of the execution scope, in construction order. -/
def globals_names : List String :=
  ["io", "StringIO", "BytesIO", "file_data", "os", "sys", "re", "json",
   "csv", "zipfile", "hashlib", "time", "datetime", "calendar", "shutil",
   "pathlib", "gzip", "subprocess", "collections", "pandas", "chardet",
   "feedparser", "requests", "openpyxl", "PIL"]

/-- blackbox1.py result selection on normal completion (lines 348-365): the
`result` binding if present, else the value of the last binding whose name
does not start with an underscore, else an explanatory success sentinel. -/
def select_result (locals : List (String × PyVal)) : PyVal :=
  match lookupKey locals "result" with
  | some v => v
  | none =>
    match (locals.filter (fun p => !(pyStartsWith p.1 "_"))).getLast? with
    | some p => p.2
    | none => .vStr "Execution successful but no result was returned."

/-- The outcome dictionary returned by blackbox1.py
`DynamicCodeExecutor.execute`: either success with a result value, or
failure with an error message, a traceback and the unavailable module
list. -/
inductive ExecOutcome where
| ok (result : PyVal)
| failed (error : String) (tb : String) (unavailable_modules : List String)

/-- The `success` field of the outcome dictionary. -/
def ExecOutcome.success : ExecOutcome → Bool
| .ok _ => true
| .failed _ _ _ => false

/-- blackbox1.py `DynamicCodeExecutor.execute`: detect required modules,
resolve them, build the fixed globals scope, run the program, and convert
every exception (from scope setup, modelled by `setupError`, or from the
program itself) into a failure outcome annotated with the unavailable
modules.  Module resolution itself runs before the try block; the variant
`executeE` below represents the case in which resolution raises an uncaught
exception, which this total model cannot express. -/
def execute (avail : String → Bool) (setupError : Option (String × String))
    (c : PyCode) (fd : Option (List Nat)) : ExecOutcome :=
  let required := get_required_modules c
  let unavailable := (load_modules_dynamically avail required).2
  match setupError with
  | some (msg, tb) => .failed ("System Error: " ++ msg) tb unavailable
  | none =>
    match c.run (build_globals fd) with
    | .raises msg tb => .failed ("Execution Error: " ++ msg) tb unavailable
    | .completes locals => .ok (select_result locals)

/-- blackbox1.py `format_result`: numbers render bare, a one-entry mapping
renders as the str() of its value, a mapping with any other entry count
renders as its JSON serialization, and everything else renders via str(). -/
def format_result : PyVal → String
| .vInt n => toString n
| .vFloat s => s
| .vDict [(_, v)] => pyStr v
| .vDict l => jsonDumps l
| .vStr s => s

/-- Observable trace of one request through blackbox1.py `submit`: the
returned answer, the number of Executor invocations, the number of
Synthesizer invocations, and the failure data handed to
`debug_and_retry` when a repair cycle ran. -/
structure SubmitTrace where
  answer : String
  execCalls : Nat
  synthCalls : Nat
  repairInput : Option (String × String × List String)

/-- blackbox1.py `submit` (lines 504-534), with the first Synthesizer reply,
the repair reply (as a function of the failure data embedded in the debug
prompt) and the Executor as oracles: a reply without a fenced block is the
trimmed direct answer; otherwise the extracted program runs, a failure
triggers exactly one repair and one re-run, and a second failure's error
message becomes the answer. -/
def submit (reply : String)
    (repairReply : String → String → List String → String)
    (execf : String → ExecOutcome) : SubmitTrace :=
  if contains_python_fence reply then
    match execf (extract_code reply) with
    | .ok v => ⟨format_result v, 1, 1, none⟩
    | .failed e tb unav =>
      match execf (extract_if_fence (repairReply e tb unav)) with
      | .ok v => ⟨format_result v, 2, 2, some (e, tb, unav)⟩
      | .failed e2 _ _ => ⟨e2, 2, 2, some (e, tb, unav)⟩
  else ⟨pyStrip reply, 0, 1, none⟩

/-- Replies of the language-model backend as observed by `query_mistral`:
HTTP 429, a parseable success, a transport error (requests.RequestException),
a reply whose JSON structure cannot be parsed, or any other exception. -/
inductive BackendResp where
| rateLimited
| ok (content : String)
| transportErr (msg : String)
| parseErr (msg : String)
| otherErr (msg : String)

/-- What `query_mistral` produces: the reply content, or a raised
HTTPException with a status code and detail string. -/
inductive QMOutcome where
| content (s : String)
| httpExc (code : Nat) (detail : String)

/-- The attempt loop of blackbox1.py `CodeGenerator.query_mistral` (lines
187-224), by fuel (remaining attempts); returns the outcome together with
the number of backend calls made and the total seconds slept.  A 429 or a
transport error sleeps retry_delay * 2 ^ attempt and retries; a parse or
other error raises on the final attempt and otherwise sleeps and retries;
an exhausted loop raises 503. -/
def qmLoop (resp : Nat → BackendResp) (base attempt : Nat) :
    Nat → QMOutcome × Nat × Nat
| 0 => (.httpExc 503 "Mistral API unavailable after multiple attempts", 0, 0)
| fuel + 1 =>
  match resp attempt with
  | .ok c => (.content c, 1, 0)
  | .rateLimited =>
    let r := qmLoop resp base (attempt + 1) fuel
    (r.1, r.2.1 + 1, r.2.2 + base * 2 ^ attempt)
  | .transportErr _ =>
    let r := qmLoop resp base (attempt + 1) fuel
    (r.1, r.2.1 + 1, r.2.2 + base * 2 ^ attempt)
  | .parseErr m =>
    if fuel = 0 then
      (.httpExc 500 ("Failed to parse Mistral API response: " ++ m), 1, 0)
    else
      let r := qmLoop resp base (attempt + 1) fuel
      (r.1, r.2.1 + 1, r.2.2 + base * 2 ^ attempt)
  | .otherErr m =>
    if fuel = 0 then (.httpExc 500 ("Mistral API error: " ++ m), 1, 0)
    else
      let r := qmLoop resp base (attempt + 1) fuel
      (r.1, r.2.1 + 1, r.2.2 + base * 2 ^ attempt)

/-- blackbox1.py `CodeGenerator.query_mistral` with the backend's reply to
each attempt as an oracle, a retry budget and the base retry delay. -/
def query_mistral (resp : Nat → BackendResp) (retries base : Nat) :
    QMOutcome × Nat × Nat :=
  qmLoop resp base 0 retries

/-- Outcome of one acquisition attempt inside the try block of
`load_modules_dynamically`: the import (and, for dotted entries, the getattr
chain) succeeds; or it raises ImportError, the only exception the except
clause catches; or it raises some other exception (for a dotted registry
entry the getattr chain can raise AttributeError, e.g. for PIL.Image in a
fresh process), which the except clause does not catch. -/
inductive AcqResult where
| acquired
| importError
| raisesExc (msg : String)

/-- True when the acquisition attempt succeeds; restricting an oracle that
never raises an uncaught exception to this Bool recovers the binary
availability oracle of `registryStep` and `extraStep`. -/
def AcqResult.isAcquired : AcqResult → Bool
| .acquired => true
| _ => false

/-- One iteration of the first loop of `load_modules_dynamically` with the
uncaught-exception path represented: an ImportError is appended to the
unavailable list, but any other exception raised by the acquisition (such as
AttributeError from the getattr chain of a dotted entry) propagates out of
the loop. -/
def registryStepE (acq : String → AcqResult) (required : List String)
    (acc : List (String × String) × List String) (p : String × String) :
    Except String (List (String × String) × List String) :=
  if required.contains p.1 || required.any (fun m => pyStartsWith m (p.1 ++ ".")) then
    match acq p.1 with
    | .acquired => Except.ok (acc.1 ++ [(p.2, p.1)], acc.2)
    | .importError => Except.ok (acc.1, acc.2 ++ [p.1])
    | .raisesExc m => Except.error m
  else Except.ok acc

/-- One iteration of the second loop of `load_modules_dynamically` with the
uncaught-exception path represented: only ImportError is caught, so any
other exception raised at import time propagates. -/
def extraStepE (acq : String → AcqResult)
    (acc : List (String × String) × List String) (m : String) :
    Except String (List (String × String) × List String) :=
  if !(m.data.contains '.') && AVAILABLE_MODULES.all (fun p => p.1 != m) then
    match acq m with
    | .acquired => Except.ok (acc.1 ++ [(m, m)], acc.2)
    | .importError => Except.ok (acc.1, acc.2 ++ [m])
    | .raisesExc msg => Except.error msg
  else Except.ok acc

/-- blackbox1.py `DynamicCodeExecutor.load_modules_dynamically` with the
uncaught-exception path represented: an exception other than ImportError
raised during an acquisition propagates out of the function. -/
def load_modules_dynamicallyE (acq : String → AcqResult)
    (required : List String) :
    Except String (List (String × String) × List String) := do
  let acc1 ← AVAILABLE_MODULES.foldlM (registryStepE acq required) ([], [])
  required.foldlM (extraStepE acq) acc1

/-- blackbox1.py `DynamicCodeExecutor.execute` with the uncaught-exception
path represented: `load_modules_dynamically` runs at line 292, outside the
try block that starts at line 297, so an exception it raises propagates out
of `execute` to the caller instead of becoming a failure outcome; every
other path returns an outcome dictionary as in `execute`. -/
def executeE (acq : String → AcqResult) (setupError : Option (String × String))
    (c : PyCode) (fd : Option (List Nat)) : Except String ExecOutcome :=
  match load_modules_dynamicallyE acq (get_required_modules c) with
  | .error m => Except.error m
  | .ok loaded =>
    match setupError with
    | some (msg, tb) =>
      Except.ok (.failed ("System Error: " ++ msg) tb loaded.2)
    | none =>
      match c.run (build_globals fd) with
      | .raises msg tb =>
        Except.ok (.failed ("Execution Error: " ++ msg) tb loaded.2)
      | .completes locals => Except.ok (.ok (select_result locals))

/-- An acquisition oracle on which the getattr chain for the dotted registry
entry PIL.Image raises AttributeError (as in a fresh Python process, where
importing PIL does not import its Image submodule) while every other
acquisition succeeds. -/
def acqPILProbe : String → AcqResult := fun m =>
  if m = "PIL.Image" then .raisesExc "module PIL has no attribute Image"
  else .acquired

/-- A generated program whose only import statement is `import PIL.Image`
and whose execution would complete normally with a result binding. -/
def progImportPILImage : PyCode :=
  ⟨some ["PIL.Image"], fun _ => .completes [("result", .vInt 1)]⟩

end Blackbox1

namespace Blackbox

/-- The fixed globals dictionary of blackbox.py
`DynamicCodeExecutor.execute` (lines 162-183). -/
def bb_globals (fd : Option (List Nat)) : List (String × Blackbox1.ScopeVal) := [
("pd", .moduleHandle "pandas"), ("zipfile", .moduleHandle "zipfile"),
("io", .moduleHandle "io"), ("hashlib", .moduleHandle "hashlib"),
("json", .moduleHandle "json"), ("re", .moduleHandle "re"),
("StringIO", .fnHandle "io.StringIO"), ("BytesIO", .fnHandle "io.BytesIO"),
("file_data", .fileDataVal fd), ("pdfplumber", .moduleHandle "pdfplumber"),
("PIL", .moduleHandle "PIL"), ("Image", .moduleHandle "PIL.Image"),
("datetime", .moduleHandle "datetime"), ("csv", .moduleHandle "csv"),
("os", .moduleHandle "os"), ("sys", .moduleHandle "sys"),
("BeautifulSoup", .fnHandle "bs4.BeautifulSoup"),
("requests", .moduleHandle "requests"),
("openpyxl", .moduleHandle "openpyxl"), ("np", .moduleHandle "numpy")]

/-- blackbox.py result selection (lines 196-204): same rule as blackbox1.py
but the selected value is stringified immediately. -/
def select_result_str (locals : List (String × PyVal)) : String :=
  match lookupKey locals "result" with
  | some v => pyStr v
  | none =>
    match (locals.filter (fun p => !(pyStartsWith p.1 "_"))).getLast? with
    | some p => pyStr p.2
    | none => "Execution successful but no result was returned."

/-- blackbox.py `DynamicCodeExecutor.execute`: returns a plain string; an
exception yields the message prefixed with `Execution Error: `, discarding
the traceback, and there is no unavailable-modules annotation. -/
def execute (c : Blackbox1.PyCode) (fd : Option (List Nat)) : String :=
  match c.run (bb_globals fd) with
  | .raises msg _ => "Execution Error: " ++ msg
  | .completes locals => select_result_str locals

/-- blackbox.py `submit` (lines 280-307): the answer paired with the number
of Executor invocations.  A reply without a fenced block is returned
verbatim; otherwise the extracted program runs, and a repair cycle is
triggered exactly when the returned string starts with
`Execution Error`. -/
def submit (reply : String) (repairReply : String → String)
    (execf : String → String) : String × Nat :=
  if contains_python_fence reply then
    let result := execf (extract_code reply)
    if pyStartsWith result "Execution Error" then
      (execf (extract_if_fence (repairReply result)), 2)
    else (result, 1)
  else (reply, 0)

end Blackbox

namespace Mistral

/-- Python `s.split(chr 10)[-1]`: the last newline-separated line. -/
def last_line (s : String) : String :=
  ((pySplit s "\n").getLast?).getD ""

/-- mistral.py `SafeCodeExecutor.execute` result selection (line 196): only
the `result` binding of the execution globals is consulted, with a fixed
default; there is no most-recent-binding fallback. -/
def select_result (globals : List (String × PyVal)) : String :=
  match lookupKey globals "result" with
  | some v => pyStr v
  | none => "No result found"

/-- mistral.py `submit` (lines 220-233): the answer paired with the number
of Executor invocations.  A reply without a fenced block answers with the
reply's last line; otherwise the extracted program runs (validation and
execution abstracted by the `execf` oracle) and the answer is the last line
of the execution result. -/
def submit (reply : String) (execf : String → String) : String × Nat :=
  if contains_python_fence reply then
    (last_line (execf (extract_code reply)), 1)
  else (last_line reply, 0)

end Mistral

/-- Claim C8: `format_result` is total by construction (every branch returns
text) and obeys: a numeric value renders as its bare string form, a mapping
with exactly one entry renders as that entry's value, a mapping with two or
more entries renders as its JSON serialization, and an already-formatted
text value is returned unchanged, so formatting is idempotent. -/
theorem c8_format_result_spec :
    (∀ n : Int, Blackbox1.format_result (.vInt n) = toString n) ∧
    (∀ s : String, Blackbox1.format_result (.vFloat s) = s) ∧
    (∀ (k : String) (v : PyVal),
      Blackbox1.format_result (.vDict [(k, v)]) = pyStr v) ∧
    (∀ (e1 e2 : String × PyVal) (rest : List (String × PyVal)),
      Blackbox1.format_result (.vDict (e1 :: e2 :: rest)) =
        jsonDumps (e1 :: e2 :: rest)) ∧
    (∀ s : String, Blackbox1.format_result (.vStr s) = s) ∧
    (∀ v : PyVal, Blackbox1.format_result (.vStr (Blackbox1.format_result v)) =
      Blackbox1.format_result v) := by
  refine ⟨fun n => rfl, fun s => rfl, fun k v => rfl, fun e1 e2 rest => rfl,
    fun s => rfl, fun v => rfl⟩

/-- Claim C4 (amended): on normal completion the success value is the
`result` binding if present, otherwise the value of the most recently
defined binding whose name does not start with an underscore, otherwise the
sentinel string `Execution successful but no result was returned.`; in the
mistral.py variant only the `result` binding is consulted, with default
`No result found`. -/
theorem c4_result_selection_rule :
    (∀ (locals : List (String × PyVal)) (v : PyVal),
      lookupKey locals "result" = some v → Blackbox1.select_result locals = v) ∧
    (∀ (locals : List (String × PyVal)) (p : String × PyVal),
      lookupKey locals "result" = none →
      (locals.filter (fun q => !(pyStartsWith q.1 "_"))).getLast? = some p →
      Blackbox1.select_result locals = p.2) ∧
    (∀ locals : List (String × PyVal),
      lookupKey locals "result" = none →
      (locals.filter (fun q => !(pyStartsWith q.1 "_"))).getLast? = none →
      Blackbox1.select_result locals =
        .vStr "Execution successful but no result was returned.") ∧
    (∀ g : List (String × PyVal), lookupKey g "result" = none →
      Mistral.select_result g = "No result found") := by
  refine ⟨fun locals v h => ?_, fun locals p h1 h2 => ?_, fun locals h1 h2 => ?_,
    fun g h => ?_⟩
  · simp [Blackbox1.select_result, h]
  · simp [Blackbox1.select_result, h1, h2]
  · simp [Blackbox1.select_result, h1, h2]
  · simp [Mistral.select_result, h]

/-- Claim C4 counterexample: with no binding at all the executor's sentinel
is `Execution successful but no result was returned.`, not the claimed
`no result produced`, and the mistral.py executor ignores bindings other
than `result` entirely. -/
theorem c4_sentinel_counterexample :
    Blackbox1.select_result [] =
      .vStr "Execution successful but no result was returned." ∧
    "Execution successful but no result was returned." ≠ "no result produced" ∧
    Mistral.select_result [("x", .vInt 5)] = "No result found" :=
  ⟨rfl, by decide, rfl⟩

/-- Claim C4 witness: the selection rule evaluated on concrete local
dictionaries, one per branch of the rule. -/
theorem c4_result_selection_rule_witness :
    Blackbox1.select_result [("x", .vInt 1), ("result", .vStr "ans")] =
      .vStr "ans" ∧
    Blackbox1.select_result [("_tmp", .vInt 0), ("value", .vInt 42)] =
      .vInt 42 ∧
    Mistral.select_result [("y", .vInt 3)] = "No result found" :=
  ⟨c4_result_selection_rule.1 [("x", .vInt 1), ("result", .vStr "ans")]
      (.vStr "ans") rfl,
   c4_result_selection_rule.2.1 [("_tmp", .vInt 0), ("value", .vInt 42)]
      ("value", .vInt 42) rfl rfl,
   c4_result_selection_rule.2.2.2 [("y", .vInt 3)] rfl⟩

/-- Claim C2 counterexample: for a program with no imports the resolved
capability mapping is empty, yet the execution scope still contains a
`subprocess` binding (process spawning), which is not the `file_data`
binding either, and a running program can observe it in its scope. -/
theorem c2_scope_counterexample :
    "subprocess" ∈ (Blackbox1.build_globals none).map Prod.fst ∧
    "subprocess" ≠ "file_data" ∧
    (Blackbox1.load_modules_dynamically (fun _ => true)
      (Blackbox1.get_required_modules ⟨some [], fun _ => .completes []⟩)).1 = [] ∧
    Blackbox1.execute (fun _ => true) none
      ⟨some [], fun scope => .completes [("probe",
        .vStr (if (scope.map Prod.fst).contains "subprocess" then "yes" else "no"))]⟩
      none = .ok (.vStr "yes") :=
  ⟨by decide, by decide, by decide, rfl⟩

/-- Claim C2 (amended): the execution scope's binding names are a fixed
25-name list independent of the program and of capability resolution; it
binds the raw bytes under `file_data` and also ambient host modules
(`subprocess`, `os`, `shutil`, `requests`); the dynamically resolved
capability handles are not injected, so the executor's result on a
normally completing program does not depend on the availability oracle. -/
theorem c2_scope_fixed_bindings :
    (∀ fd, (Blackbox1.build_globals fd).map Prod.fst = Blackbox1.globals_names) ∧
    (∀ fd, lookupKey (Blackbox1.build_globals fd) "file_data" =
      some (.fileDataVal fd)) ∧
    ("subprocess" ∈ Blackbox1.globals_names ∧ "os" ∈ Blackbox1.globals_names ∧
      "shutil" ∈ Blackbox1.globals_names ∧
      "requests" ∈ Blackbox1.globals_names) ∧
    (∀ (avail avail2 : String → Bool) (c : Blackbox1.PyCode) fd locals,
      c.run (Blackbox1.build_globals fd) = .completes locals →
      Blackbox1.execute avail none c fd = Blackbox1.execute avail2 none c fd) := by
  refine ⟨fun fd => rfl, fun fd => rfl, by decide, fun avail avail2 c fd locals h => ?_⟩
  simp [Blackbox1.execute, h]

/-- Claim C2 witness: the availability-independence part evaluated with the
all-available and none-available oracles on a concrete program. -/
theorem c2_scope_fixed_bindings_witness :
    Blackbox1.execute (fun _ => true) none
      ⟨some ["pandas"], fun _ => .completes [("result", .vInt 7)]⟩ none =
    Blackbox1.execute (fun _ => false) none
      ⟨some ["pandas"], fun _ => .completes [("result", .vInt 7)]⟩ none :=
  c2_scope_fixed_bindings.2.2.2 (fun _ => true) (fun _ => false)
    ⟨some ["pandas"], fun _ => .completes [("result", .vInt 7)]⟩ none
    [("result", .vInt 7)] rfl

/-- Claim C3 counterexample: on the fence-free reply joining `a` and `b`
with a newline, the mistral.py variant answers with the last line `b`,
which differs from the reply's trimmed text. -/
theorem c3_direct_answer_counterexample :
    contains_python_fence "a\nb" = false ∧
    Mistral.submit "a\nb" (fun _ => "") = ("b", 0) ∧
    "b" ≠ pyStrip "a\nb" :=
  ⟨by decide, by decide, by decide⟩

/-- Claim C3 (amended): when the Synthesizer reply contains no fenced code
block the Executor is never invoked (zero executor calls) and the answer is
the reply's trimmed text in blackbox1.py but the reply's last
newline-separated line in mistral.py. -/
theorem c3_direct_answer_path :
    ∀ reply : String, contains_python_fence reply = false →
    (∀ (repairReply : String → String → List String → String)
       (execf : String → Blackbox1.ExecOutcome),
      Blackbox1.submit reply repairReply execf = ⟨pyStrip reply, 0, 1, none⟩) ∧
    (∀ execf2 : String → String,
      Mistral.submit reply execf2 = (Mistral.last_line reply, 0)) := by
  intro reply h
  constructor
  · intro repairReply execf
    simp [Blackbox1.submit, h]
  · intro execf2
    simp [Mistral.submit, h]

/-- Claim C3 witness: the direct-answer path evaluated on a concrete
fence-free reply. -/
theorem c3_direct_answer_path_witness :
    Blackbox1.submit "hello there" (fun _ _ _ => "r")
      (fun _ => .failed "e" "t" []) = ⟨pyStrip "hello there", 0, 1, none⟩ ∧
    Mistral.submit "hello there" (fun _ => "r") =
      (Mistral.last_line "hello there", 0) :=
  ⟨(c3_direct_answer_path "hello there" (by decide)).1 _ _,
   (c3_direct_answer_path "hello there" (by decide)).2 _⟩

/-- Claim C1: when the first generated program fails and the corrected
program fails again, the orchestrator performs exactly one repair cycle:
two Executor invocations, two Synthesizer invocations, the failure handed
to the repair prompt, and the second failure's error message returned as
the final answer. -/
theorem c1_repair_exactly_once
    (reply : String) (repairReply : String → String → List String → String)
    (execf : String → Blackbox1.ExecOutcome)
    (e tb : String) (unav : List String) (e2 tb2 : String) (unav2 : List String)
    (hfence : contains_python_fence reply = true)
    (h1 : execf (extract_code reply) = .failed e tb unav)
    (h2 : execf (extract_if_fence (repairReply e tb unav)) =
      .failed e2 tb2 unav2) :
    Blackbox1.submit reply repairReply execf = ⟨e2, 2, 2, some (e, tb, unav)⟩ := by
  simp [Blackbox1.submit, hfence, h1, h2]

/-- Claim C1 witness: the repair bound evaluated with an always-failing
executor oracle on a concrete fenced reply. -/
theorem c1_repair_exactly_once_witness :
    Blackbox1.submit "```python\nx = 1\n```" (fun _ _ _ => "retry")
      (fun _ => .failed "Execution Error: boom" "tb" []) =
      ⟨"Execution Error: boom", 2, 2,
        some ("Execution Error: boom", "tb", [])⟩ :=
  c1_repair_exactly_once "```python\nx = 1\n```" (fun _ _ _ => "retry")
    (fun _ => .failed "Execution Error: boom" "tb" [])
    "Execution Error: boom" "tb" [] "Execution Error: boom" "tb" []
    (by decide) rfl rfl


/-- Claim C9: in the blackbox.py variant the repair cycle is triggered
exactly when the executor's returned string starts with `Execution Error`;
a program that completes successfully with a result value stringifying to
`Execution Error: fake` therefore triggers a spurious repair cycle and the
answer surfaces that text through the failure path. -/
theorem c9_bb_repair_trigger :
    (∀ (reply : String) (rg : String → String) (execf : String → String),
      contains_python_fence reply = true →
      ((Blackbox.submit reply rg execf).2 = 2 ↔
        pyStartsWith (execf (extract_code reply)) "Execution Error" = true)) ∧
    Blackbox.execute
      ⟨some [], fun _ => .completes [("result", .vStr "Execution Error: fake")]⟩
      none = "Execution Error: fake" ∧
    Blackbox.submit "```python\nresult = compute()\n```" (fun _ => "retry")
      (fun _ => Blackbox.execute
        ⟨some [], fun _ => .completes [("result", .vStr "Execution Error: fake")]⟩
        none) = ("Execution Error: fake", 2) := by
  refine ⟨fun reply rg execf h => ?_, rfl, by decide⟩
  simp only [Blackbox.submit, h, if_true]
  by_cases hs : pyStartsWith (execf (extract_code reply)) "Execution Error" = true
  · simp [hs]
  · simp [hs]

/-- Claim C9 witness: the trigger equivalence evaluated on a concrete
fenced reply with a non-error executor result. -/
theorem c9_bb_repair_trigger_witness :
    (Blackbox.submit "```python\nx = 1\n```" (fun _ => "r") (fun _ => "fine")).2 = 2 ↔
      pyStartsWith "fine" "Execution Error" = true :=
  c9_bb_repair_trigger.1 "```python\nx = 1\n```" (fun _ => "r") (fun _ => "fine")
    (by decide)

/-- Helper: on an oracle that never raises an uncaught exception, one
registry acquisition step of the exception-aware model agrees with the
binary model. -/
theorem registryStepE_agree (acq : String → Blackbox1.AcqResult)
    (required : List String) (h : ∀ m s, acq m ≠ .raisesExc s)
    (acc : List (String × String) × List String) (p : String × String) :
    Blackbox1.registryStepE acq required acc p =
      Except.ok (Blackbox1.registryStep (fun m => (acq m).isAcquired)
        required acc p) := by
  unfold Blackbox1.registryStepE Blackbox1.registryStep
  by_cases hc : (required.contains p.1 ||
      required.any fun m => pyStartsWith m (p.1 ++ ".")) = true
  · rw [if_pos hc, if_pos hc]
    cases hacq : acq p.1 with
    | acquired => simp [Blackbox1.AcqResult.isAcquired, hacq]
    | importError => simp [Blackbox1.AcqResult.isAcquired, hacq]
    | raisesExc s => exact absurd hacq (h p.1 s)
  · rw [if_neg hc, if_neg hc]

/-- Helper: on an oracle that never raises an uncaught exception, one
second-loop acquisition step of the exception-aware model agrees with the
binary model. -/
theorem extraStepE_agree (acq : String → Blackbox1.AcqResult)
    (h : ∀ m s, acq m ≠ .raisesExc s)
    (acc : List (String × String) × List String) (m : String) :
    Blackbox1.extraStepE acq acc m =
      Except.ok (Blackbox1.extraStep (fun n => (acq n).isAcquired) acc m) := by
  unfold Blackbox1.extraStepE Blackbox1.extraStep
  by_cases hc : (!(m.data.contains '.') &&
      Blackbox1.AVAILABLE_MODULES.all fun p => p.1 != m) = true
  · rw [if_pos hc, if_pos hc]
    cases hacq : acq m with
    | acquired => simp [Blackbox1.AcqResult.isAcquired, hacq]
    | importError => simp [Blackbox1.AcqResult.isAcquired, hacq]
    | raisesExc s => exact absurd hacq (h m s)
  · rw [if_neg hc, if_neg hc]

/-- Helper: the registry fold of the exception-aware model agrees with the
binary model on non-raising oracles. -/
theorem foldlM_registryStepE_agree (acq : String → Blackbox1.AcqResult)
    (required : List String) (h : ∀ m s, acq m ≠ .raisesExc s) :
    ∀ (l : List (String × String))
      (acc : List (String × String) × List String),
      l.foldlM (Blackbox1.registryStepE acq required) acc =
        Except.ok (l.foldl
          (Blackbox1.registryStep (fun m => (acq m).isAcquired) required) acc) := by
  intro l
  induction l with
  | nil => intro acc; rfl
  | cons a rest ih =>
    intro acc
    rw [List.foldlM_cons, registryStepE_agree acq required h acc a]
    simpa using ih _

/-- Helper: the second-loop fold of the exception-aware model agrees with
the binary model on non-raising oracles. -/
theorem foldlM_extraStepE_agree (acq : String → Blackbox1.AcqResult)
    (h : ∀ m s, acq m ≠ .raisesExc s) :
    ∀ (l : List String) (acc : List (String × String) × List String),
      l.foldlM (Blackbox1.extraStepE acq) acc =
        Except.ok (l.foldl
          (Blackbox1.extraStep (fun m => (acq m).isAcquired)) acc) := by
  intro l
  induction l with
  | nil => intro acc; rfl
  | cons a rest ih =>
    intro acc
    rw [List.foldlM_cons, extraStepE_agree acq h acc a]
    simpa using ih _

/-- Helper: on non-raising oracles the exception-aware
`load_modules_dynamicallyE` returns exactly the binary
`load_modules_dynamically` result. -/
theorem load_modulesE_agree (acq : String → Blackbox1.AcqResult)
    (h : ∀ m s, acq m ≠ .raisesExc s) (required : List String) :
    Blackbox1.load_modules_dynamicallyE acq required =
      Except.ok (Blackbox1.load_modules_dynamically
        (fun m => (acq m).isAcquired) required) := by
  unfold Blackbox1.load_modules_dynamicallyE Blackbox1.load_modules_dynamically
  rw [foldlM_registryStepE_agree acq required h]
  simpa using foldlM_extraStepE_agree acq h required _

/-- Claim C10 (amended): blackbox1.py `execute` returns an outcome
dictionary with a success key on every path on which module resolution does
not raise: unparsable code yields an empty required-module set, a
scope-setup exception yields a `System Error` failure outcome, a program
exception yields an `Execution Error` failure outcome, normal completion
yields success, and under an acquisition oracle that never raises an
uncaught exception the exception-aware executor agrees with the total model
`execute`.  But module resolution runs outside execute's try block and its
except clause catches only ImportError, so any other acquisition exception
propagates out of `execute` to its caller. -/
theorem c10_execute_exception_paths :
    ∀ (acq : String → Blackbox1.AcqResult) (c : Blackbox1.PyCode)
      (fd : Option (List Nat)) (setupError : Option (String × String)),
    (c.parseImports = none → Blackbox1.get_required_modules c = []) ∧
    (∀ m, Blackbox1.load_modules_dynamicallyE acq
        (Blackbox1.get_required_modules c) = Except.error m →
      Blackbox1.executeE acq setupError c fd = Except.error m) ∧
    (∀ loaded, Blackbox1.load_modules_dynamicallyE acq
        (Blackbox1.get_required_modules c) = Except.ok loaded →
      (∀ msg tb, setupError = some (msg, tb) →
        Blackbox1.executeE acq setupError c fd =
          Except.ok (.failed ("System Error: " ++ msg) tb loaded.2)) ∧
      (∀ msg tb, setupError = none →
        c.run (Blackbox1.build_globals fd) = .raises msg tb →
        Blackbox1.executeE acq setupError c fd =
          Except.ok (.failed ("Execution Error: " ++ msg) tb loaded.2)) ∧
      (∀ locals, setupError = none →
        c.run (Blackbox1.build_globals fd) = .completes locals →
        Blackbox1.executeE acq setupError c fd =
          Except.ok (.ok (Blackbox1.select_result locals)))) ∧
    ((∀ m s, acq m ≠ .raisesExc s) →
      Blackbox1.executeE acq setupError c fd =
        Except.ok (Blackbox1.execute (fun m => (acq m).isAcquired)
          setupError c fd)) := by
  intro acq c fd setupError
  refine ⟨fun h => by simp [Blackbox1.get_required_modules, h],
    fun m hm => by simp [Blackbox1.executeE, hm],
    fun loaded hl => ⟨fun msg tb hs => ?_, fun msg tb hs hr => ?_,
      fun locals hs hr => ?_⟩,
    fun h => ?_⟩
  · subst hs; simp [Blackbox1.executeE, hl]
  · subst hs; simp [Blackbox1.executeE, hl, hr]
  · subst hs; simp [Blackbox1.executeE, hl, hr]
  · rw [Blackbox1.executeE, load_modulesE_agree acq h]
    unfold Blackbox1.execute
    cases setupError with
    | some pr => cases pr; rfl
    | none => cases hrun : c.run (Blackbox1.build_globals fd) <;> simp [hrun]

/-- Claim C10 counterexample: for the generated program whose only import
is PIL.Image and whose execution would complete normally, acquisition of
the dotted registry entry PIL.Image raises AttributeError from the getattr
chain (while importing PIL alone succeeds, as in a fresh Python process);
the exception escapes `load_modules_dynamically` and `execute`, so
`execute` propagates an exception to its caller instead of returning an
outcome dictionary. -/
theorem c10_resolution_exception_counterexample :
    Blackbox1.executeE Blackbox1.acqPILProbe none
      Blackbox1.progImportPILImage none =
      Except.error "module PIL has no attribute Image" ∧
    Blackbox1.progImportPILImage.run (Blackbox1.build_globals none) =
      .completes [("result", .vInt 1)] ∧
    Blackbox1.acqPILProbe "PIL" = .acquired :=
  ⟨rfl, rfl, rfl⟩

/-- Claim C10 witness: the propagation path, the non-raising agreement
with the total model, and the unparsable-code branch evaluated at concrete
inputs. -/
theorem c10_execute_exception_paths_witness :
    Blackbox1.executeE Blackbox1.acqPILProbe none
      Blackbox1.progImportPILImage none =
      Except.error "module PIL has no attribute Image" ∧
    Blackbox1.executeE (fun _ => .acquired) none
      Blackbox1.progImportPILImage none =
      Except.ok (Blackbox1.execute
        (fun m => ((fun _ => Blackbox1.AcqResult.acquired) m).isAcquired)
        none Blackbox1.progImportPILImage none) ∧
    Blackbox1.get_required_modules ⟨none, fun _ => .completes []⟩ = [] :=
  ⟨(c10_execute_exception_paths Blackbox1.acqPILProbe
      Blackbox1.progImportPILImage none none).2.1
      "module PIL has no attribute Image" rfl,
   (c10_execute_exception_paths (fun _ => .acquired)
      Blackbox1.progImportPILImage none none).2.2.2
      (fun _ _ hEq => Blackbox1.AcqResult.noConfusion hEq),
   (c10_execute_exception_paths Blackbox1.acqPILProbe
      ⟨none, fun _ => .completes []⟩ none none).1 rfl⟩

/-- Claim C5 counterexample: in the blackbox.py variant two executions
raising with the same message but different call-stack traces produce
identical outcomes, so the returned failure cannot carry the trace (nor any
unavailable-capability set). -/
theorem c5_failure_no_trace_counterexample :
    Blackbox.execute ⟨some [], fun _ => .raises "boom" "trace one"⟩ none =
      "Execution Error: boom" ∧
    Blackbox.execute ⟨some [], fun _ => .raises "boom" "trace two"⟩ none =
      "Execution Error: boom" ∧
    "trace one" ≠ "trace two" :=
  ⟨rfl, rfl, by decide⟩

/-- Claim C5 (amended): in blackbox1.py a raising program yields a returned
failure outcome carrying a non-empty `Execution Error` message, the
traceback and the unavailable-module list, and the orchestrator hands
exactly that failure data to the repair prompt; in blackbox.py the failure
is only the bare `Execution Error` message string. -/
theorem c5_failure_outcome_shape :
    (∀ (avail : String → Bool) (c : Blackbox1.PyCode) (fd : Option (List Nat))
       (msg tb : String),
      c.run (Blackbox1.build_globals fd) = .raises msg tb →
      Blackbox1.execute avail none c fd =
        .failed ("Execution Error: " ++ msg) tb
          (Blackbox1.load_modules_dynamically avail
            (Blackbox1.get_required_modules c)).2 ∧
      ("Execution Error: " ++ msg) ≠ "") ∧
    (∀ (reply : String) (rg : String → String → List String → String)
       (execf : String → Blackbox1.ExecOutcome) (e tb : String)
       (u : List String),
      contains_python_fence reply = true →
      execf (extract_code reply) = .failed e tb u →
      (Blackbox1.submit reply rg execf).repairInput = some (e, tb, u)) ∧
    (∀ (c : Blackbox1.PyCode) (fd : Option (List Nat)) (msg tb : String),
      c.run (Blackbox.bb_globals fd) = .raises msg tb →
      Blackbox.execute c fd = "Execution Error: " ++ msg) := by
  refine ⟨fun avail c fd msg tb h => ⟨?_, ?_⟩, fun reply rg execf e tb u h1 h2 => ?_,
    fun c fd msg tb h => ?_⟩
  · simp [Blackbox1.execute, h]
  · intro hEq
    have h2 := congrArg String.data hEq
    simp [String.data_append] at h2
  · simp only [Blackbox1.submit, h1, if_true, h2]
    cases h3 : execf (extract_if_fence (rg e tb u)) <;> simp
  · simp [Blackbox.execute, h]

/-- Claim C5 witness: the blackbox1.py failure shape evaluated on a
concrete raising program with an unavailable import. -/
theorem c5_failure_outcome_shape_witness :
    Blackbox1.execute (fun _ => false) none
      ⟨some ["numpy"], fun _ => .raises "name x is not defined" "Traceback text"⟩
      none =
      .failed ("Execution Error: " ++ "name x is not defined") "Traceback text"
        (Blackbox1.load_modules_dynamically (fun _ => false)
          (Blackbox1.get_required_modules
            ⟨some ["numpy"],
             fun _ => .raises "name x is not defined" "Traceback text"⟩)).2 ∧
    ("Execution Error: " ++ "name x is not defined") ≠ "" :=
  c5_failure_outcome_shape.1 (fun _ => false)
    ⟨some ["numpy"], fun _ => .raises "name x is not defined" "Traceback text"⟩
    none "name x is not defined" "Traceback text" rfl

/-- Helper: the retry loop makes at most `fuel` backend calls. -/
theorem qmLoop_calls_le (resp : Nat → Blackbox1.BackendResp) (base : Nat) :
    ∀ (fuel attempt : Nat),
      (Blackbox1.qmLoop resp base attempt fuel).2.1 ≤ fuel := by
  intro fuel
  induction fuel with
  | zero => intro attempt; simp [Blackbox1.qmLoop]
  | succ n ih =>
    intro attempt
    simp only [Blackbox1.qmLoop]
    cases h : resp attempt with
    | ok c => simp
    | rateLimited => simpa using Nat.succ_le_succ (ih (attempt + 1))
    | transportErr m => simpa using Nat.succ_le_succ (ih (attempt + 1))
    | parseErr m =>
      by_cases hn : n = 0
      · simp [hn]
      · simpa [hn] using Nat.succ_le_succ (ih (attempt + 1))
    | otherErr m =>
      by_cases hn : n = 0
      · simp [hn]
      · simpa [hn] using Nat.succ_le_succ (ih (attempt + 1))

/-- Helper: one rate-limited step of the retry loop adds one backend call
and a sleep of base times 2 to the attempt index. -/
theorem qmLoop_rl_step (resp : Nat → Blackbox1.BackendResp)
    (base attempt fuel : Nat) (h : resp attempt = .rateLimited) :
    Blackbox1.qmLoop resp base attempt (fuel + 1) =
      ((Blackbox1.qmLoop resp base (attempt + 1) fuel).1,
       (Blackbox1.qmLoop resp base (attempt + 1) fuel).2.1 + 1,
       (Blackbox1.qmLoop resp base (attempt + 1) fuel).2.2 + base * 2 ^ attempt) := by
  simp [Blackbox1.qmLoop, h]

/-- Helper: a successful attempt stops the retry loop at once. -/
theorem qmLoop_ok_step (resp : Nat → Blackbox1.BackendResp)
    (base attempt fuel : Nat) (c : String) (h : resp attempt = .ok c) :
    Blackbox1.qmLoop resp base attempt (fuel + 1) = (.content c, 1, 0) := by
  simp [Blackbox1.qmLoop, h]

/-- Helper: under permanent rate limiting the loop exhausts its fuel and
raises the 503 backend-unavailable error. -/
theorem qmLoop_all_rl (resp : Nat → Blackbox1.BackendResp) (base : Nat)
    (hresp : ∀ i, resp i = .rateLimited) :
    ∀ (fuel attempt : Nat),
      (Blackbox1.qmLoop resp base attempt fuel).1 =
        .httpExc 503 "Mistral API unavailable after multiple attempts" ∧
      (Blackbox1.qmLoop resp base attempt fuel).2.1 = fuel := by
  intro fuel
  induction fuel with
  | zero => intro attempt; exact ⟨rfl, rfl⟩
  | succ n ih =>
    intro attempt
    rw [qmLoop_rl_step resp base attempt n (hresp attempt)]
    exact ⟨(ih (attempt + 1)).1, by simpa using (ih (attempt + 1)).2⟩

/-- Claim C6: `query_mistral` makes at most `retries` backend attempts;
with 429 on the first two attempts and success on the third it succeeds on
the third attempt with total sleep base*1 + base*2, which is at least
base + 2*base; and when every attempt is rate limited it raises the 503
backend-unavailable error after exactly `retries` attempts. -/
theorem c6_retry_policy :
    (∀ (resp : Nat → Blackbox1.BackendResp) (retries base : Nat),
      (Blackbox1.query_mistral resp retries base).2.1 ≤ retries) ∧
    (∀ (resp : Nat → Blackbox1.BackendResp) (retries base : Nat) (c : String),
      resp 0 = .rateLimited → resp 1 = .rateLimited → resp 2 = .ok c →
      3 ≤ retries →
      Blackbox1.query_mistral resp retries base =
        (.content c, 3, base * 2 + base) ∧
      base + 2 * base ≤ base * 2 + base) ∧
    (∀ (resp : Nat → Blackbox1.BackendResp) (retries base : Nat),
      (∀ i, resp i = .rateLimited) →
      (Blackbox1.query_mistral resp retries base).1 =
        .httpExc 503 "Mistral API unavailable after multiple attempts" ∧
      (Blackbox1.query_mistral resp retries base).2.1 = retries) := by
  refine ⟨fun resp retries base => qmLoop_calls_le resp base retries 0,
    fun resp retries base c h0 h1 h2 hret => ⟨?_, by omega⟩,
    fun resp retries base hresp => qmLoop_all_rl resp base hresp retries 0⟩
  obtain ⟨k, rfl⟩ : ∃ k, retries = k + 3 := ⟨retries - 3, by omega⟩
  show Blackbox1.qmLoop resp base 0 (k + 3) = (.content c, 3, base * 2 + base)
  rw [show k + 3 = (k + 2) + 1 from rfl, qmLoop_rl_step resp base 0 (k + 2) h0,
    show k + 2 = (k + 1) + 1 from rfl,
    qmLoop_rl_step resp base 1 (k + 1) (by simpa using h1),
    qmLoop_ok_step resp base 2 k c (by simpa using h2)]
  norm_num [pow_succ]

/-- Claim C6 witness: the 429-429-200 scenario evaluated at retries 5 and
base delay 2. -/
theorem c6_retry_policy_witness :
    Blackbox1.query_mistral
      (fun i => if i < 2 then .rateLimited else .ok "answer") 5 2 =
      (.content "answer", 3, 2 * 2 + 2) ∧
    2 + 2 * 2 ≤ 2 * 2 + 2 :=
  (c6_retry_policy.2.1 (fun i => if i < 2 then .rateLimited else .ok "answer")
    5 2 "answer" rfl rfl rfl (by omega))

/-- Helper: the second resolution loop never removes an available entry. -/
theorem extraStep_fst_mem (avail : String → Bool)
    (acc : List (String × String) × List String) (m : String)
    (x : String × String) (hx : x ∈ acc.1) :
    x ∈ (Blackbox1.extraStep avail acc m).1 := by
  unfold Blackbox1.extraStep
  split
  · split <;> simp [List.mem_append, hx]
  · exact hx

/-- Helper: the second resolution loop never removes an unavailable name. -/
theorem extraStep_snd_mem (avail : String → Bool)
    (acc : List (String × String) × List String) (m : String)
    (x : String) (hx : x ∈ acc.2) :
    x ∈ (Blackbox1.extraStep avail acc m).2 := by
  unfold Blackbox1.extraStep
  split
  · split <;> simp [List.mem_append, hx]
  · exact hx

/-- Helper: folding the second resolution loop preserves available
entries. -/
theorem foldl_extraStep_fst_mem (avail : String → Bool) :
    ∀ (l : List String) (acc : List (String × String) × List String)
      (x : String × String), x ∈ acc.1 →
      x ∈ (l.foldl (Blackbox1.extraStep avail) acc).1 := by
  intro l
  induction l with
  | nil => intro acc x hx; exact hx
  | cons a rest ih =>
    intro acc x hx
    simp only [List.foldl_cons]
    exact ih _ x (extraStep_fst_mem avail acc a x hx)

/-- Helper: folding the second resolution loop preserves unavailable
names. -/
theorem foldl_extraStep_snd_mem (avail : String → Bool) :
    ∀ (l : List String) (acc : List (String × String) × List String)
      (x : String), x ∈ acc.2 →
      x ∈ (l.foldl (Blackbox1.extraStep avail) acc).2 := by
  intro l
  induction l with
  | nil => intro acc x hx; exact hx
  | cons a rest ih =>
    intro acc x hx
    simp only [List.foldl_cons]
    exact ih _ x (extraStep_snd_mem avail acc a x hx)

/-- Helper: the second resolution loop binds an importable dot-free
non-registry requested name under itself. -/
theorem foldl_extraStep_adds_avail (avail : String → Bool) :
    ∀ (l : List String) (acc : List (String × String) × List String)
      (m : String), m ∈ l →
      (!(m.data.contains '.') &&
        Blackbox1.AVAILABLE_MODULES.all (fun p => p.1 != m)) = true →
      avail m = true →
      (m, m) ∈ (l.foldl (Blackbox1.extraStep avail) acc).1 := by
  intro l
  induction l with
  | nil => intro acc m h; cases h
  | cons a rest ih =>
    intro acc m hmem hcond havail
    rcases List.mem_cons.1 hmem with rfl | hmem2
    · simp only [List.foldl_cons]
      apply foldl_extraStep_fst_mem
      unfold Blackbox1.extraStep
      rw [if_pos hcond, if_pos havail]
      simp
    · simp only [List.foldl_cons]
      exact ih _ m hmem2 hcond havail

/-- Helper: the second resolution loop records a failing dot-free
non-registry requested name as unavailable. -/
theorem foldl_extraStep_adds_unavail (avail : String → Bool) :
    ∀ (l : List String) (acc : List (String × String) × List String)
      (m : String), m ∈ l →
      (!(m.data.contains '.') &&
        Blackbox1.AVAILABLE_MODULES.all (fun p => p.1 != m)) = true →
      avail m = false →
      m ∈ (l.foldl (Blackbox1.extraStep avail) acc).2 := by
  intro l
  induction l with
  | nil => intro acc m h; cases h
  | cons a rest ih =>
    intro acc m hmem hcond havail
    rcases List.mem_cons.1 hmem with rfl | hmem2
    · simp only [List.foldl_cons]
      apply foldl_extraStep_snd_mem
      unfold Blackbox1.extraStep
      rw [if_pos hcond, if_neg ?_]
      · simp
      · simp [havail]
    · simp only [List.foldl_cons]
      exact ih _ m hmem2 hcond havail

/-- Helper: the registry loop never removes an available entry. -/
theorem registryStep_fst_mem (avail : String → Bool) (required : List String)
    (acc : List (String × String) × List String) (p : String × String)
    (x : String × String) (hx : x ∈ acc.1) :
    x ∈ (Blackbox1.registryStep avail required acc p).1 := by
  unfold Blackbox1.registryStep
  split
  · split <;> simp [List.mem_append, hx]
  · exact hx

/-- Helper: the registry loop never removes an unavailable name. -/
theorem registryStep_snd_mem (avail : String → Bool) (required : List String)
    (acc : List (String × String) × List String) (p : String × String)
    (x : String) (hx : x ∈ acc.2) :
    x ∈ (Blackbox1.registryStep avail required acc p).2 := by
  unfold Blackbox1.registryStep
  split
  · split <;> simp [List.mem_append, hx]
  · exact hx

/-- Helper: folding the registry loop preserves available entries. -/
theorem foldl_registryStep_fst_mem (avail : String → Bool)
    (required : List String) :
    ∀ (l : List (String × String))
      (acc : List (String × String) × List String)
      (x : String × String), x ∈ acc.1 →
      x ∈ (l.foldl (Blackbox1.registryStep avail required) acc).1 := by
  intro l
  induction l with
  | nil => intro acc x hx; exact hx
  | cons a rest ih =>
    intro acc x hx
    simp only [List.foldl_cons]
    exact ih _ x (registryStep_fst_mem avail required acc a x hx)

/-- Helper: folding the registry loop preserves unavailable names. -/
theorem foldl_registryStep_snd_mem (avail : String → Bool)
    (required : List String) :
    ∀ (l : List (String × String))
      (acc : List (String × String) × List String)
      (x : String), x ∈ acc.2 →
      x ∈ (l.foldl (Blackbox1.registryStep avail required) acc).2 := by
  intro l
  induction l with
  | nil => intro acc x hx; exact hx
  | cons a rest ih =>
    intro acc x hx
    simp only [List.foldl_cons]
    exact ih _ x (registryStep_snd_mem avail required acc a x hx)

/-- Helper: the registry loop binds an importable requested registry
module under its alias. -/
theorem foldl_registryStep_adds_avail (avail : String → Bool)
    (required : List String) :
    ∀ (l : List (String × String))
      (acc : List (String × String) × List String)
      (name al : String), (name, al) ∈ l →
      required.contains name = true → avail name = true →
      (al, name) ∈ (l.foldl (Blackbox1.registryStep avail required) acc).1 := by
  intro l
  induction l with
  | nil => intro acc name al h; cases h
  | cons a rest ih =>
    intro acc name al hmem hcont havail
    rcases List.mem_cons.1 hmem with heq | hmem2
    · simp only [List.foldl_cons]
      apply foldl_registryStep_fst_mem
      cases heq
      unfold Blackbox1.registryStep
      rw [if_pos ?_, if_pos havail]
      · simp
      · simp only [Bool.or_eq_true]
        exact Or.inl hcont
    · simp only [List.foldl_cons]
      exact ih _ name al hmem2 hcont havail

/-- Helper: the registry loop records a failing requested registry module
as unavailable. -/
theorem foldl_registryStep_adds_unavail (avail : String → Bool)
    (required : List String) :
    ∀ (l : List (String × String))
      (acc : List (String × String) × List String)
      (name al : String), (name, al) ∈ l →
      required.contains name = true → avail name = false →
      name ∈ (l.foldl (Blackbox1.registryStep avail required) acc).2 := by
  intro l
  induction l with
  | nil => intro acc name al h; cases h
  | cons a rest ih =>
    intro acc name al hmem hcont havail
    rcases List.mem_cons.1 hmem with heq | hmem2
    · simp only [List.foldl_cons]
      apply foldl_registryStep_snd_mem
      cases heq
      unfold Blackbox1.registryStep
      rw [if_pos ?_, if_neg ?_]
      · simp
      · simp [havail]
      · simp only [Bool.or_eq_true]
        exact Or.inl hcont
    · simp only [List.foldl_cons]
      exact ih _ name al hmem2 hcont havail

/-- Claim C7 counterexample: requesting the registry name `pandas` with
its import succeeding binds the handle under the alias `pd`, so the
requested name itself does not appear in the available mapping; and a
dotted non-registry request such as `foo.bar` is silently ignored, landing
in neither the available mapping nor the unavailable set. -/
theorem c7_resolve_counterexample :
    (Blackbox1.load_modules_dynamically (fun m => m == "pandas") ["pandas"]).1 =
      [("pd", "pandas")] ∧
    "pandas" ∉ ((Blackbox1.load_modules_dynamically (fun m => m == "pandas")
      ["pandas"]).1.map Prod.fst) ∧
    (Blackbox1.load_modules_dynamically (fun m => m == "pandas") ["pandas"]).2 =
      [] ∧
    Blackbox1.load_modules_dynamically (fun _ => false) ["foo.bar"] = ([], []) :=
  ⟨by decide, by decide, by decide, by decide⟩

/-- Claim C7 (amended): resolution is a pure function of the availability
oracle, it never raises, and resolve on the names `a` (available) and `b`
(missing) yields available a and unavailable b as the claim's example
states; in general an importable dot-free non-registry request is bound
under its own name and a failing one is added to unavailable, while a
requested registry module is bound under its registry alias and its name is
added to unavailable on failure. -/
theorem c7_resolve_partition :
    (Blackbox1.load_modules_dynamically (fun m => m == "a") ["a", "b"] =
      ([("a", "a")], ["b"])) ∧
    (∀ (avail : String → Bool) (required : List String) (m : String),
      m ∈ required → m.data.contains '.' = false →
      (∀ p ∈ Blackbox1.AVAILABLE_MODULES, p.1 ≠ m) →
      (avail m = true →
        (m, m) ∈ (Blackbox1.load_modules_dynamically avail required).1) ∧
      (avail m = false →
        m ∈ (Blackbox1.load_modules_dynamically avail required).2)) ∧
    (∀ (avail : String → Bool) (required : List String) (name al : String),
      (name, al) ∈ Blackbox1.AVAILABLE_MODULES → name ∈ required →
      (avail name = true →
        (al, name) ∈ (Blackbox1.load_modules_dynamically avail required).1) ∧
      (avail name = false →
        name ∈ (Blackbox1.load_modules_dynamically avail required).2)) := by
  refine ⟨by decide, fun avail required m hmem hdot hreg => ⟨?_, ?_⟩,
    fun avail required name al hreg hmem => ⟨?_, ?_⟩⟩
  · intro havail
    apply foldl_extraStep_adds_avail avail required _ m hmem ?_ havail
    simp only [hdot, Bool.not_false, Bool.true_and, List.all_eq_true, bne_iff_ne]
    exact fun p hp => hreg p hp
  · intro havail
    apply foldl_extraStep_adds_unavail avail required _ m hmem ?_ havail
    simp only [hdot, Bool.not_false, Bool.true_and, List.all_eq_true, bne_iff_ne]
    exact fun p hp => hreg p hp
  · intro havail
    apply foldl_extraStep_fst_mem
    apply foldl_registryStep_adds_avail avail required _ _ name al hreg ?_ havail
    simpa [List.contains] using hmem
  · intro havail
    apply foldl_extraStep_snd_mem
    apply foldl_registryStep_adds_unavail avail required _ _ name al hreg ?_ havail
    simpa [List.contains] using hmem

/-- Claim C7 witness: the registry-alias and unavailable branches
evaluated on concrete requests. -/
theorem c7_resolve_partition_witness :
    ("requests", "requests") ∈
      (Blackbox1.load_modules_dynamically (fun _ => true)
        ["requests", "mystery"]).1 ∧
    "mystery" ∈
      (Blackbox1.load_modules_dynamically (fun m => m != "mystery")
        ["mystery"]).2 :=
  ⟨(c7_resolve_partition.2.2 (fun _ => true) ["requests", "mystery"]
      "requests" "requests" (by decide) (by decide)).1 rfl,
   (c7_resolve_partition.2.1 (fun m => m != "mystery") ["mystery"] "mystery"
      (by decide) (by decide) (by decide)).2 rfl⟩
